import Mathlib

/-!
Shallow embedding of `programs/clearing_house/src/order_validation.rs`:
the order admission-control gate of the clearing house. Rust `u128`
quantities are embedded as `Nat` together with explicitly checked
arithmetic (`checked_mul` / `checked_div`) that fails exactly where the
Rust checked operations return `None`. Fallible Rust functions returning
`ClearingHouseResult` are embedded as `Except ErrorCode Unit`, with the
`?` operator rendered as explicit `match` on an `Except` value, so each
guard clause of the source appears as one `if` / `match` in the same
order.
-/

namespace OrderValidation

/-- Modelled from the spec: the error type (`error.rs` is not under
`src/`). §7 distinguishes exactly two disjoint error categories: a
validation rejection (the source's `ErrorCode::InvalidOrder`, the value
returned by every guard clause in `order_validation.rs`) and an
arithmetic failure produced by `math_error!()` when a checked operation
fails. -/
inductive ErrorCode
  | InvalidOrder
  | MathError
deriving DecidableEq

/-- Result type of the validators: `ClearingHouseResult` is
`Result<(), ErrorCode>` in the source. -/
abbrev ClearingHouseResult := Except ErrorCode Unit

inductive OrderType
  | Market
  | Limit
  | Stop
  | StopLimit
deriving DecidableEq

inductive PositionDirection
  | Long
  | Short
deriving DecidableEq

inductive OrderTriggerCondition
  | Above
  | Below
deriving DecidableEq

/-- Modelled from the spec: the `Order` struct (`state/user_orders.rs`
is not under `src/`). §3 lists the fields read by the gate; all numeric
fields are unsigned fixed-point integers, embedded as `Nat` with
128-bit checked arithmetic. -/
structure Order where
  order_type : OrderType
  direction : PositionDirection
  price : Nat
  trigger_price : Nat
  base_asset_amount : Nat
  quote_asset_amount : Nat
  trigger_condition : OrderTriggerCondition
deriving DecidableEq

/-- Modelled from the spec: the AMM parameters of a market read by the
gate (`state/market.rs` is not under `src/`), per §3 and §6. -/
structure AMM where
  peg_multiplier : Nat
  minimum_base_asset_trade_size : Nat
  minimum_quote_asset_trade_size : Nat
deriving DecidableEq

structure Market where
  amm : AMM
deriving DecidableEq

/-- Modelled from the spec: venue-wide order policy
(`state/order_state.rs` is not under `src/`), per §3. -/
structure OrderState where
  min_order_quote_asset_amount : Nat
deriving DecidableEq

/-- Successor of the largest `u128` value: Rust checked arithmetic on
`u128` fails exactly when a result would reach this bound. -/
def U128_BOUND : Nat := 2 ^ 128

/-- Embedding of Rust `u128::checked_mul`. -/
def checked_mul (a b : Nat) : Option Nat :=
  if a * b < U128_BOUND then some (a * b) else none

/-- Embedding of Rust `u128::checked_div`: fails exactly on division by
zero. -/
def checked_div (a b : Nat) : Option Nat :=
  if b = 0 then none else some (a / b)

/-- Embedding of `.ok_or_else(math_error!())?`: a failed checked
operation becomes the arithmetic-failure error. -/
def ok_or_math (o : Option Nat) : Except ErrorCode Nat :=
  match o with
  | none => Except.error ErrorCode.MathError
  | some v => Except.ok v

/-- Modelled from the spec: `math/constants.rs` is not under `src/`.
§3 and the glossary describe three fixed-point scales (reserve
precision for base quantities, price precision, quote precision); the
values here are representative powers of ten with price precision a
positive multiple of quote precision, matching the source's use of the
exact quotient `MARK_PRICE_PRECISION / QUOTE_PRECISION` as a divisor. -/
def AMM_RESERVE_PRECISION : Nat := 10 ^ 13

/-- Modelled from the spec: see `AMM_RESERVE_PRECISION`. -/
def MARK_PRICE_PRECISION : Nat := 10 ^ 10

/-- Modelled from the spec: see `AMM_RESERVE_PRECISION`. -/
def QUOTE_PRECISION : Nat := 10 ^ 6

/-- Modelled from the spec: the quote→reserve conversion collaborator
`asset_to_reserve_amount` (`math/quote_asset.rs` is not under `src/`).
Per §4.3 and §6 it converts a quote-precision notional plus the peg
multiplier into a reserve-precision quantity, is overflow-checked, and
may itself fail with an arithmetic-failure error that the caller must
propagate unchanged. -/
def asset_to_reserve_amount (quote_asset_amount peg_multiplier : Nat) :
    Except ErrorCode Nat :=
  match checked_mul quote_asset_amount (AMM_RESERVE_PRECISION / QUOTE_PRECISION) with
  | none => Except.error ErrorCode.MathError
  | some scaled =>
    match checked_div scaled peg_multiplier with
    | none => Except.error ErrorCode.MathError
    | some reserve_amount => Except.ok reserve_amount

/-- Embedding of `validate_base_asset_amount` (order_validation.rs,
lines 163-175). -/
def validate_base_asset_amount (order : Order) (market : Market) :
    ClearingHouseResult :=
  if order.base_asset_amount = 0 then
    Except.error ErrorCode.InvalidOrder
  else if order.base_asset_amount < market.amm.minimum_base_asset_trade_size then
    Except.error ErrorCode.InvalidOrder
  else
    Except.ok ()

/-- Embedding of `validate_quote_asset_amount` (order_validation.rs,
lines 177-192). -/
def validate_quote_asset_amount (order : Order) (market : Market) :
    ClearingHouseResult :=
  if order.quote_asset_amount = 0 then
    Except.error ErrorCode.InvalidOrder
  else
    match asset_to_reserve_amount order.quote_asset_amount market.amm.peg_multiplier with
    | Except.error e => Except.error e
    | Except.ok quote_asset_reserve_amount =>
      if quote_asset_reserve_amount < market.amm.minimum_quote_asset_trade_size then
        Except.error ErrorCode.InvalidOrder
      else
        Except.ok ()

/-- Embedding of `validate_market_order` (order_validation.rs, lines
27-45). -/
def validate_market_order (order : Order) (market : Market) :
    ClearingHouseResult :=
  if 0 < order.quote_asset_amount ∧ 0 < order.base_asset_amount then
    Except.error ErrorCode.InvalidOrder
  else
    match
      (if 0 < order.base_asset_amount then
        validate_base_asset_amount order market
      else
        validate_quote_asset_amount order market) with
    | Except.error e => Except.error e
    | Except.ok _ =>
      if 0 < order.trigger_price then
        Except.error ErrorCode.InvalidOrder
      else
        Except.ok ()

/-- Embedding of `validate_limit_order` (order_validation.rs, lines
47-79). -/
def validate_limit_order (order : Order) (market : Market)
    (order_state : OrderState) : ClearingHouseResult :=
  match validate_base_asset_amount order market with
  | Except.error e => Except.error e
  | Except.ok _ =>
    if order.price = 0 then
      Except.error ErrorCode.InvalidOrder
    else if 0 < order.trigger_price then
      Except.error ErrorCode.InvalidOrder
    else
      match ok_or_math (checked_mul order.price order.base_asset_amount) with
      | Except.error e => Except.error e
      | Except.ok m1 =>
        match ok_or_math (checked_div m1 AMM_RESERVE_PRECISION) with
        | Except.error e => Except.error e
        | Except.ok m2 =>
          match ok_or_math (checked_div m2 (MARK_PRICE_PRECISION / QUOTE_PRECISION)) with
          | Except.error e => Except.error e
          | Except.ok approx_market_value =>
            if approx_market_value < order_state.min_order_quote_asset_amount then
              Except.error ErrorCode.InvalidOrder
            else
              Except.ok ()

/-- The trigger-condition `match` of `validate_stop_limit_order`
(order_validation.rs, lines 98-111) as a Boolean: `true` exactly when
that match returns early with `InvalidOrder`. -/
def stop_limit_trigger_inconsistent (order : Order) : Bool :=
  match order.trigger_condition with
  | OrderTriggerCondition.Above =>
    decide (order.direction = PositionDirection.Long) &&
      decide (order.price < order.trigger_price)
  | OrderTriggerCondition.Below =>
    decide (order.direction = PositionDirection.Short) &&
      decide (order.trigger_price < order.price)

/-- Embedding of `validate_stop_limit_order` (order_validation.rs,
lines 81-128). -/
def validate_stop_limit_order (order : Order) (market : Market)
    (order_state : OrderState) : ClearingHouseResult :=
  match validate_base_asset_amount order market with
  | Except.error e => Except.error e
  | Except.ok _ =>
    if order.price = 0 then
      Except.error ErrorCode.InvalidOrder
    else if order.trigger_price = 0 then
      Except.error ErrorCode.InvalidOrder
    else if stop_limit_trigger_inconsistent order then
      Except.error ErrorCode.InvalidOrder
    else
      match ok_or_math (checked_mul order.price order.base_asset_amount) with
      | Except.error e => Except.error e
      | Except.ok m1 =>
        match ok_or_math (checked_div m1 AMM_RESERVE_PRECISION) with
        | Except.error e => Except.error e
        | Except.ok m2 =>
          match ok_or_math (checked_div m2 (MARK_PRICE_PRECISION / QUOTE_PRECISION)) with
          | Except.error e => Except.error e
          | Except.ok approx_market_value =>
            if approx_market_value < order_state.min_order_quote_asset_amount then
              Except.error ErrorCode.InvalidOrder
            else
              Except.ok ()

/-- Embedding of `validate_stop_order` (order_validation.rs, lines
130-161): the notional value is computed from `trigger_price`. -/
def validate_stop_order (order : Order) (market : Market)
    (order_state : OrderState) : ClearingHouseResult :=
  match validate_base_asset_amount order market with
  | Except.error e => Except.error e
  | Except.ok _ =>
    if 0 < order.price then
      Except.error ErrorCode.InvalidOrder
    else if order.trigger_price = 0 then
      Except.error ErrorCode.InvalidOrder
    else
      match ok_or_math (checked_mul order.trigger_price order.base_asset_amount) with
      | Except.error e => Except.error e
      | Except.ok m1 =>
        match ok_or_math (checked_div m1 AMM_RESERVE_PRECISION) with
        | Except.error e => Except.error e
        | Except.ok m2 =>
          match ok_or_math (checked_div m2 (MARK_PRICE_PRECISION / QUOTE_PRECISION)) with
          | Except.error e => Except.error e
          | Except.ok approx_market_value =>
            if approx_market_value < order_state.min_order_quote_asset_amount then
              Except.error ErrorCode.InvalidOrder
            else
              Except.ok ()

/-- Embedding of `validate_order` (order_validation.rs, lines 12-25):
dispatch on the order type. -/
def validate_order (order : Order) (market : Market)
    (order_state : OrderState) : ClearingHouseResult :=
  match order.order_type with
  | OrderType.Market => validate_market_order order market
  | OrderType.Limit => validate_limit_order order market order_state
  | OrderType.Stop => validate_stop_order order market order_state
  | OrderType.StopLimit => validate_stop_limit_order order market order_state

/-- The approximate-notional formula as the spec words it (§4.5): the
checked product of a price and a base amount, checked-divided first by
the reserve precision and then by the ratio of price precision to
quote precision. Stated separately from the validators so that
theorems can relate the code's inline computation to this formula. -/
def approx_notional (price base_asset_amount : Nat) : Option Nat :=
  match checked_mul price base_asset_amount with
  | none => none
  | some m1 =>
    match checked_div m1 AMM_RESERVE_PRECISION with
    | none => none
    | some m2 => checked_div m2 (MARK_PRICE_PRECISION / QUOTE_PRECISION)

/-- The Market rule set as the claim words it: reject on conflicting
size specification, then base rule if a base amount is given else
quote rule, then reject a trigger price; short-circuiting on the first
failure. Stated separately from `validate_market_order` for the
refinement theorem. -/
def market_rule_spec (order : Order) (market : Market) :
    ClearingHouseResult :=
  if order.base_asset_amount ≠ 0 ∧ order.quote_asset_amount ≠ 0 then
    Except.error ErrorCode.InvalidOrder
  else
    match
      (if 0 < order.base_asset_amount then
        validate_base_asset_amount order market
      else
        validate_quote_asset_amount order market) with
    | Except.error e => Except.error e
    | Except.ok _ =>
      if 0 < order.trigger_price then
        Except.error ErrorCode.InvalidOrder
      else
        Except.ok ()

/-- The common tail of the Limit, Stop and StopLimit rule sets: gate on
the approximate notional value, failing arithmetically when a checked
operation fails, and rejecting when the value is below the venue-wide
minimum. Used to state the reduction lemmas. -/
def notional_gate (price base_asset_amount : Nat) (order_state : OrderState) :
    ClearingHouseResult :=
  match approx_notional price base_asset_amount with
  | none => Except.error ErrorCode.MathError
  | some v =>
    if v < order_state.min_order_quote_asset_amount then
      Except.error ErrorCode.InvalidOrder
    else
      Except.ok ()

/-- Replace only the `quote_asset_amount` field of an order; used to
state that non-Market validation does not read that field. -/
def set_quote_asset_amount (o : Order) (q : Nat) : Order :=
  ⟨o.order_type, o.direction, o.price, o.trigger_price,
   o.base_asset_amount, q, o.trigger_condition⟩

deriving instance DecidableEq for Except

/-! ### Reduction lemmas: dispatch and guard clauses -/

lemma validate_order_market (o : Order) (m : Market) (os : OrderState)
    (h : o.order_type = OrderType.Market) :
    validate_order o m os = validate_market_order o m := by
  unfold validate_order; rw [h]

lemma validate_order_limit (o : Order) (m : Market) (os : OrderState)
    (h : o.order_type = OrderType.Limit) :
    validate_order o m os = validate_limit_order o m os := by
  unfold validate_order; rw [h]

lemma validate_order_stop (o : Order) (m : Market) (os : OrderState)
    (h : o.order_type = OrderType.Stop) :
    validate_order o m os = validate_stop_order o m os := by
  unfold validate_order; rw [h]

lemma validate_order_stop_limit (o : Order) (m : Market) (os : OrderState)
    (h : o.order_type = OrderType.StopLimit) :
    validate_order o m os = validate_stop_limit_order o m os := by
  unfold validate_order; rw [h]

lemma base_amount_zero (o : Order) (m : Market)
    (h : o.base_asset_amount = 0) :
    validate_base_asset_amount o m = Except.error ErrorCode.InvalidOrder := by
  unfold validate_base_asset_amount; rw [if_pos h]

lemma base_amount_below (o : Order) (m : Market)
    (h0 : o.base_asset_amount ≠ 0)
    (h1 : o.base_asset_amount < m.amm.minimum_base_asset_trade_size) :
    validate_base_asset_amount o m = Except.error ErrorCode.InvalidOrder := by
  unfold validate_base_asset_amount; rw [if_neg h0, if_pos h1]

lemma base_amount_ok (o : Order) (m : Market)
    (h0 : o.base_asset_amount ≠ 0)
    (h1 : m.amm.minimum_base_asset_trade_size ≤ o.base_asset_amount) :
    validate_base_asset_amount o m = Except.ok () := by
  unfold validate_base_asset_amount
  rw [if_neg h0, if_neg (by omega : ¬ o.base_asset_amount < m.amm.minimum_base_asset_trade_size)]

lemma notional_gate_some (price base : Nat) (os : OrderState) (v : Nat)
    (h : approx_notional price base = some v) :
    notional_gate price base os =
      if v < os.min_order_quote_asset_amount then
        Except.error ErrorCode.InvalidOrder
      else
        Except.ok () := by
  unfold notional_gate; rw [h]

lemma notional_gate_none (price base : Nat) (os : OrderState)
    (h : approx_notional price base = none) :
    notional_gate price base os = Except.error ErrorCode.MathError := by
  unfold notional_gate; rw [h]

lemma limit_base_err (o : Order) (m : Market) (os : OrderState) (e : ErrorCode)
    (h : validate_base_asset_amount o m = Except.error e) :
    validate_limit_order o m os = Except.error e := by
  unfold validate_limit_order; rw [h]

lemma limit_price_zero (o : Order) (m : Market) (os : OrderState)
    (hb : validate_base_asset_amount o m = Except.ok ())
    (hp : o.price = 0) :
    validate_limit_order o m os = Except.error ErrorCode.InvalidOrder := by
  unfold validate_limit_order; rw [hb, if_pos hp]

lemma limit_trigger_pos (o : Order) (m : Market) (os : OrderState)
    (hb : validate_base_asset_amount o m = Except.ok ())
    (hp : o.price ≠ 0) (ht : 0 < o.trigger_price) :
    validate_limit_order o m os = Except.error ErrorCode.InvalidOrder := by
  unfold validate_limit_order; rw [hb, if_neg hp, if_pos ht]

lemma limit_tail (o : Order) (m : Market) (os : OrderState)
    (hb : validate_base_asset_amount o m = Except.ok ())
    (hp : o.price ≠ 0) (ht : o.trigger_price = 0) :
    validate_limit_order o m os = notional_gate o.price o.base_asset_amount os := by
  unfold validate_limit_order notional_gate approx_notional ok_or_math
  rw [hb, if_neg hp, if_neg (by omega : ¬ 0 < o.trigger_price)]
  rcases checked_mul o.price o.base_asset_amount with _ | m1
  · rfl
  · rcases checked_div m1 AMM_RESERVE_PRECISION with _ | m2
    · rfl
    · rcases checked_div m2 (MARK_PRICE_PRECISION / QUOTE_PRECISION) with _ | v <;> rfl

lemma stop_base_err (o : Order) (m : Market) (os : OrderState) (e : ErrorCode)
    (h : validate_base_asset_amount o m = Except.error e) :
    validate_stop_order o m os = Except.error e := by
  unfold validate_stop_order; rw [h]

lemma stop_price_pos (o : Order) (m : Market) (os : OrderState)
    (hb : validate_base_asset_amount o m = Except.ok ())
    (hp : 0 < o.price) :
    validate_stop_order o m os = Except.error ErrorCode.InvalidOrder := by
  unfold validate_stop_order; rw [hb, if_pos hp]

lemma stop_trigger_zero (o : Order) (m : Market) (os : OrderState)
    (hb : validate_base_asset_amount o m = Except.ok ())
    (hp : ¬ 0 < o.price) (ht : o.trigger_price = 0) :
    validate_stop_order o m os = Except.error ErrorCode.InvalidOrder := by
  unfold validate_stop_order; rw [hb, if_neg hp, if_pos ht]

lemma stop_tail (o : Order) (m : Market) (os : OrderState)
    (hb : validate_base_asset_amount o m = Except.ok ())
    (hp : ¬ 0 < o.price) (ht : o.trigger_price ≠ 0) :
    validate_stop_order o m os =
      notional_gate o.trigger_price o.base_asset_amount os := by
  unfold validate_stop_order notional_gate approx_notional ok_or_math
  rw [hb, if_neg hp, if_neg ht]
  rcases checked_mul o.trigger_price o.base_asset_amount with _ | m1
  · rfl
  · rcases checked_div m1 AMM_RESERVE_PRECISION with _ | m2
    · rfl
    · rcases checked_div m2 (MARK_PRICE_PRECISION / QUOTE_PRECISION) with _ | v <;> rfl

lemma stop_limit_base_err (o : Order) (m : Market) (os : OrderState) (e : ErrorCode)
    (h : validate_base_asset_amount o m = Except.error e) :
    validate_stop_limit_order o m os = Except.error e := by
  unfold validate_stop_limit_order; rw [h]

lemma stop_limit_price_zero (o : Order) (m : Market) (os : OrderState)
    (hb : validate_base_asset_amount o m = Except.ok ())
    (hp : o.price = 0) :
    validate_stop_limit_order o m os = Except.error ErrorCode.InvalidOrder := by
  unfold validate_stop_limit_order; rw [hb, if_pos hp]

lemma stop_limit_trigger_zero (o : Order) (m : Market) (os : OrderState)
    (hb : validate_base_asset_amount o m = Except.ok ())
    (hp : o.price ≠ 0) (ht : o.trigger_price = 0) :
    validate_stop_limit_order o m os = Except.error ErrorCode.InvalidOrder := by
  unfold validate_stop_limit_order; rw [hb, if_neg hp, if_pos ht]

lemma stop_limit_inconsistent (o : Order) (m : Market) (os : OrderState)
    (hb : validate_base_asset_amount o m = Except.ok ())
    (hp : o.price ≠ 0) (ht : o.trigger_price ≠ 0)
    (hc : stop_limit_trigger_inconsistent o = true) :
    validate_stop_limit_order o m os = Except.error ErrorCode.InvalidOrder := by
  unfold validate_stop_limit_order
  rw [hb, if_neg hp, if_neg ht, if_pos hc]

lemma stop_limit_tail (o : Order) (m : Market) (os : OrderState)
    (hb : validate_base_asset_amount o m = Except.ok ())
    (hp : o.price ≠ 0) (ht : o.trigger_price ≠ 0)
    (hc : stop_limit_trigger_inconsistent o = false) :
    validate_stop_limit_order o m os =
      notional_gate o.price o.base_asset_amount os := by
  unfold validate_stop_limit_order notional_gate approx_notional ok_or_math
  rw [hb, if_neg hp, if_neg ht, if_neg (by rw [hc]; exact Bool.false_ne_true)]
  rcases checked_mul o.price o.base_asset_amount with _ | m1
  · rfl
  · rcases checked_div m1 AMM_RESERVE_PRECISION with _ | m2
    · rfl
    · rcases checked_div m2 (MARK_PRICE_PRECISION / QUOTE_PRECISION) with _ | v <;> rfl

lemma stop_limit_inconsistent_iff (o : Order) :
    stop_limit_trigger_inconsistent o = true ↔
      ((o.trigger_condition = OrderTriggerCondition.Above ∧
          o.direction = PositionDirection.Long ∧ o.price < o.trigger_price) ∨
       (o.trigger_condition = OrderTriggerCondition.Below ∧
          o.direction = PositionDirection.Short ∧ o.trigger_price < o.price)) := by
  unfold stop_limit_trigger_inconsistent
  cases hc : o.trigger_condition <;> simp [hc]

/-! ### Acceptance implies the notional gate passed -/

lemma limit_ok_notional (o : Order) (m : Market) (os : OrderState)
    (h : validate_limit_order o m os = Except.ok ()) :
    notional_gate o.price o.base_asset_amount os = Except.ok () := by
  rcases hbe : validate_base_asset_amount o m with e | u
  · rw [limit_base_err o m os e hbe] at h; simp at h
  · have hb : validate_base_asset_amount o m = Except.ok () := by rw [hbe]
    by_cases hp : o.price = 0
    · rw [limit_price_zero o m os hb hp] at h; simp at h
    · by_cases ht : 0 < o.trigger_price
      · rw [limit_trigger_pos o m os hb hp ht] at h; simp at h
      · rw [limit_tail o m os hb hp (by omega)] at h; exact h

lemma stop_limit_ok_notional (o : Order) (m : Market) (os : OrderState)
    (h : validate_stop_limit_order o m os = Except.ok ()) :
    notional_gate o.price o.base_asset_amount os = Except.ok () := by
  rcases hbe : validate_base_asset_amount o m with e | u
  · rw [stop_limit_base_err o m os e hbe] at h; simp at h
  · have hb : validate_base_asset_amount o m = Except.ok () := by rw [hbe]
    by_cases hp : o.price = 0
    · rw [stop_limit_price_zero o m os hb hp] at h; simp at h
    · by_cases ht : o.trigger_price = 0
      · rw [stop_limit_trigger_zero o m os hb hp ht] at h; simp at h
      · cases hc : stop_limit_trigger_inconsistent o
        · rw [stop_limit_tail o m os hb hp ht hc] at h; exact h
        · rw [stop_limit_inconsistent o m os hb hp ht hc] at h; simp at h

lemma stop_ok_notional (o : Order) (m : Market) (os : OrderState)
    (h : validate_stop_order o m os = Except.ok ()) :
    notional_gate o.trigger_price o.base_asset_amount os = Except.ok () := by
  rcases hbe : validate_base_asset_amount o m with e | u
  · rw [stop_base_err o m os e hbe] at h; simp at h
  · have hb : validate_base_asset_amount o m = Except.ok () := by rw [hbe]
    by_cases hp : 0 < o.price
    · rw [stop_price_pos o m os hb hp] at h; simp at h
    · by_cases ht : o.trigger_price = 0
      · rw [stop_trigger_zero o m os hb hp ht] at h; simp at h
      · rw [stop_tail o m os hb hp ht] at h; exact h

/-! ### Claim theorems -/

/-- C1, counterexample: a Market order sized in quote terms is accepted
by `validate_order` although its notional value in quote-precision
units (its `quote_asset_amount`, here 1) is far below the venue-wide
`min_order_quote_asset_amount` (here 500000): Market orders are not
subject to the venue-wide minimum, contrary to the claim that no order
of any type below that minimum is admitted. -/
theorem C1_counterexample :
    validate_order
        ⟨OrderType.Market, PositionDirection.Long, 0, 0, 0, 1, OrderTriggerCondition.Above⟩
        ⟨⟨1, 0, 0⟩⟩ ⟨500000⟩ = Except.ok () ∧
      (⟨OrderType.Market, PositionDirection.Long, 0, 0, 0, 1,
          OrderTriggerCondition.Above⟩ : Order).quote_asset_amount <
        (⟨500000⟩ : OrderState).min_order_quote_asset_amount := by
  decide

/-- C1, amended: every Limit, Stop or StopLimit order whose approximate
notional value (computed from `price`, or from `trigger_price` for a
Stop order) is strictly below `order_state.min_order_quote_asset_amount`
is rejected by `validate_order`; Market orders are not subject to this
venue-wide minimum. -/
theorem C1_theorem (o : Order) (m : Market) (os : OrderState) (v : Nat) :
    ((o.order_type = OrderType.Limit ∨ o.order_type = OrderType.StopLimit) →
      approx_notional o.price o.base_asset_amount = some v →
      v < os.min_order_quote_asset_amount →
      validate_order o m os ≠ Except.ok ()) ∧
    (o.order_type = OrderType.Stop →
      approx_notional o.trigger_price o.base_asset_amount = some v →
      v < os.min_order_quote_asset_amount →
      validate_order o m os ≠ Except.ok ()) := by
  constructor
  · rintro (hty | hty) hv hlt hok
    · rw [validate_order_limit o m os hty] at hok
      have hng := limit_ok_notional o m os hok
      rw [notional_gate_some _ _ _ v hv, if_pos hlt] at hng
      simp at hng
    · rw [validate_order_stop_limit o m os hty] at hok
      have hng := stop_limit_ok_notional o m os hok
      rw [notional_gate_some _ _ _ v hv, if_pos hlt] at hng
      simp at hng
  · intro hty hv hlt hok
    rw [validate_order_stop o m os hty] at hok
    have hng := stop_ok_notional o m os hok
    rw [notional_gate_some _ _ _ v hv, if_pos hlt] at hng
    simp at hng

/-- C1, witness: a Limit order with approximate notional value 0, below
the venue minimum 1, is rejected. -/
theorem C1_witness :
    validate_order
        ⟨OrderType.Limit, PositionDirection.Long, 1, 0, 1, 0, OrderTriggerCondition.Above⟩
        ⟨⟨1, 1, 0⟩⟩ ⟨1⟩ ≠ Except.ok () :=
  (C1_theorem _ _ _ 0).1 (Or.inl rfl) (by decide) (by decide)

/-- C2, counterexample: three Limit orders failing three different
guards (zero base amount; base amount below the market minimum; an
unexpected trigger price) all receive the same error value
`ErrorCode.InvalidOrder` from `validate_order`, so the returned error
does not uniquely identify which guard failed. -/
theorem C2_counterexample :
    validate_order
        ⟨OrderType.Limit, PositionDirection.Long, 5, 0, 0, 0, OrderTriggerCondition.Above⟩
        ⟨⟨1, 10, 0⟩⟩ ⟨0⟩ = Except.error ErrorCode.InvalidOrder ∧
    validate_order
        ⟨OrderType.Limit, PositionDirection.Long, 5, 0, 1, 0, OrderTriggerCondition.Above⟩
        ⟨⟨1, 10, 0⟩⟩ ⟨0⟩ = Except.error ErrorCode.InvalidOrder ∧
    validate_order
        ⟨OrderType.Limit, PositionDirection.Long, 5, 7, 10, 0, OrderTriggerCondition.Above⟩
        ⟨⟨1, 10, 0⟩⟩ ⟨0⟩ = Except.error ErrorCode.InvalidOrder := by
  decide

/-- C2, amended: every guard rejection returns the single error value
`ErrorCode.InvalidOrder`; in particular an order failing the zero-base
guard and an order failing the below-minimum-base guard receive equal
error values, so the returned error does not identify the first failed
guard (guards are distinguished only by emitted diagnostic messages). -/
theorem C2_theorem (oz ob : Order) (m : Market) (os : OrderState)
    (hzt : oz.order_type = OrderType.Limit)
    (hbt : ob.order_type = OrderType.Limit)
    (hz0 : oz.base_asset_amount = 0)
    (hb0 : 0 < ob.base_asset_amount)
    (hbm : ob.base_asset_amount < m.amm.minimum_base_asset_trade_size) :
    validate_order oz m os = Except.error ErrorCode.InvalidOrder ∧
    validate_order ob m os = validate_order oz m os := by
  have h1 : validate_order oz m os = Except.error ErrorCode.InvalidOrder := by
    rw [validate_order_limit oz m os hzt]
    exact limit_base_err oz m os _ (base_amount_zero oz m hz0)
  have h2 : validate_order ob m os = Except.error ErrorCode.InvalidOrder := by
    rw [validate_order_limit ob m os hbt]
    exact limit_base_err ob m os _ (base_amount_below ob m (by omega) hbm)
  exact ⟨h1, h2.trans h1.symm⟩

/-- C2, witness: a zero-base Limit order and a below-minimum Limit
order receive the same error value. -/
theorem C2_witness :
    validate_order
        ⟨OrderType.Limit, PositionDirection.Long, 5, 0, 0, 0, OrderTriggerCondition.Above⟩
        ⟨⟨1, 10, 0⟩⟩ ⟨0⟩ = Except.error ErrorCode.InvalidOrder ∧
    validate_order
        ⟨OrderType.Limit, PositionDirection.Long, 5, 0, 3, 0, OrderTriggerCondition.Above⟩
        ⟨⟨1, 10, 0⟩⟩ ⟨0⟩ =
      validate_order
        ⟨OrderType.Limit, PositionDirection.Long, 5, 0, 0, 0, OrderTriggerCondition.Above⟩
        ⟨⟨1, 10, 0⟩⟩ ⟨0⟩ :=
  C2_theorem _ _ _ _ rfl rfl rfl (by decide) (by decide)

/-- C4: for a Market order, `validate_order` equals the rule set the
claim describes: reject when both sizes are non-zero, then the base
rule if a base amount is given and the quote rule otherwise (so a
Market order with both amounts zero is rejected by the zero-quote
guard), and finally reject a positive trigger price; short-circuiting
on the first failure. -/
theorem C4_theorem (o : Order) (m : Market) (os : OrderState)
    (h : o.order_type = OrderType.Market) :
    validate_order o m os = market_rule_spec o m := by
  rw [validate_order_market o m os h]
  unfold validate_market_order market_rule_spec
  by_cases hc : 0 < o.quote_asset_amount ∧ 0 < o.base_asset_amount
  · rw [if_pos hc,
        if_pos (show o.base_asset_amount ≠ 0 ∧ o.quote_asset_amount ≠ 0 by omega)]
  · rw [if_neg hc,
        if_neg (show ¬(o.base_asset_amount ≠ 0 ∧ o.quote_asset_amount ≠ 0) by omega)]

/-- C4, witness: the refinement holds at a concrete Market order with
both amounts zero, which is rejected by the zero-quote guard. -/
theorem C4_witness :
    validate_order
        ⟨OrderType.Market, PositionDirection.Long, 0, 0, 0, 0, OrderTriggerCondition.Above⟩
        ⟨⟨1, 10, 0⟩⟩ ⟨0⟩ =
      market_rule_spec
        ⟨OrderType.Market, PositionDirection.Long, 0, 0, 0, 0, OrderTriggerCondition.Above⟩
        ⟨⟨1, 10, 0⟩⟩ :=
  C4_theorem _ _ _ rfl

/-- C5, counterexample: for a market whose
`minimum_base_asset_trade_size` is 0, an order with
`base_asset_amount = 0` satisfies `base_asset_amount ≥ minimum` yet is
rejected by `validate_base_asset_amount`, refuting the claim that every
`base_asset_amount ≥ minimum` passes. -/
theorem C5_counterexample :
    validate_base_asset_amount
        ⟨OrderType.Limit, PositionDirection.Long, 5, 0, 0, 0, OrderTriggerCondition.Above⟩
        ⟨⟨1, 0, 0⟩⟩ = Except.error ErrorCode.InvalidOrder ∧
      (⟨⟨1, 0, 0⟩⟩ : Market).amm.minimum_base_asset_trade_size ≤
        (⟨OrderType.Limit, PositionDirection.Long, 5, 0, 0, 0,
            OrderTriggerCondition.Above⟩ : Order).base_asset_amount := by
  decide

/-- C5, amended: the shared base-amount rule fails when
`base_asset_amount = 0`, fails when
`0 < base_asset_amount < minimum_base_asset_trade_size`, and passes for
every non-zero `base_asset_amount ≥ minimum_base_asset_trade_size`. -/
theorem C5_theorem (o : Order) (m : Market) :
    (o.base_asset_amount = 0 →
      validate_base_asset_amount o m = Except.error ErrorCode.InvalidOrder) ∧
    (0 < o.base_asset_amount →
      o.base_asset_amount < m.amm.minimum_base_asset_trade_size →
      validate_base_asset_amount o m = Except.error ErrorCode.InvalidOrder) ∧
    (0 < o.base_asset_amount →
      m.amm.minimum_base_asset_trade_size ≤ o.base_asset_amount →
      validate_base_asset_amount o m = Except.ok ()) :=
  ⟨fun h0 => base_amount_zero o m h0,
   fun h0 h1 => base_amount_below o m (by omega) h1,
   fun h0 h1 => base_amount_ok o m (by omega) h1⟩

/-- C5, witness: the three regimes of the base-amount rule at concrete
inputs (zero, below minimum, at minimum) against a market minimum of
10. -/
theorem C5_witness :
    validate_base_asset_amount
        ⟨OrderType.Limit, PositionDirection.Long, 5, 0, 0, 0, OrderTriggerCondition.Above⟩
        ⟨⟨1, 10, 0⟩⟩ = Except.error ErrorCode.InvalidOrder ∧
    validate_base_asset_amount
        ⟨OrderType.Limit, PositionDirection.Long, 5, 0, 4, 0, OrderTriggerCondition.Above⟩
        ⟨⟨1, 10, 0⟩⟩ = Except.error ErrorCode.InvalidOrder ∧
    validate_base_asset_amount
        ⟨OrderType.Limit, PositionDirection.Long, 5, 0, 10, 0, OrderTriggerCondition.Above⟩
        ⟨⟨1, 10, 0⟩⟩ = Except.ok () :=
  ⟨(C5_theorem _ _).1 rfl,
   (C5_theorem _ _).2.1 (by decide) (by decide),
   (C5_theorem _ _).2.2 (by decide) (by decide)⟩

/-- C3: for a StopLimit order that passes the base, price and trigger
zero checks (and whose notional check would pass), the order is
rejected exactly when `trigger_condition = Above`, `direction = Long`
and `price < trigger_price`, or `trigger_condition = Below`,
`direction = Short` and `price > trigger_price`; for the combinations
Above/Short and Below/Long no price/trigger relation is checked and the
order passes. -/
theorem C3_theorem (o : Order) (m : Market) (os : OrderState) (v : Nat)
    (hty : o.order_type = OrderType.StopLimit)
    (hb : validate_base_asset_amount o m = Except.ok ())
    (hp : o.price ≠ 0) (ht : o.trigger_price ≠ 0)
    (hv : approx_notional o.price o.base_asset_amount = some v)
    (hmin : os.min_order_quote_asset_amount ≤ v) :
    (validate_order o m os = Except.error ErrorCode.InvalidOrder ↔
      ((o.trigger_condition = OrderTriggerCondition.Above ∧
          o.direction = PositionDirection.Long ∧ o.price < o.trigger_price) ∨
       (o.trigger_condition = OrderTriggerCondition.Below ∧
          o.direction = PositionDirection.Short ∧ o.trigger_price < o.price))) ∧
    (validate_order o m os = Except.ok () ↔
      ¬((o.trigger_condition = OrderTriggerCondition.Above ∧
          o.direction = PositionDirection.Long ∧ o.price < o.trigger_price) ∨
        (o.trigger_condition = OrderTriggerCondition.Below ∧
          o.direction = PositionDirection.Short ∧ o.trigger_price < o.price))) := by
  rw [validate_order_stop_limit o m os hty]
  cases hc : stop_limit_trigger_inconsistent o
  · have hnd : ¬((o.trigger_condition = OrderTriggerCondition.Above ∧
        o.direction = PositionDirection.Long ∧ o.price < o.trigger_price) ∨
        (o.trigger_condition = OrderTriggerCondition.Below ∧
          o.direction = PositionDirection.Short ∧ o.trigger_price < o.price)) :=
      fun d => by rw [(stop_limit_inconsistent_iff o).mpr d] at hc; cases hc
    rw [stop_limit_tail o m os hb hp ht hc, notional_gate_some _ _ _ v hv,
        if_neg (show ¬ v < os.min_order_quote_asset_amount by omega)]
    exact ⟨⟨fun h => by simp at h, fun d => absurd d hnd⟩,
           ⟨fun _ => hnd, fun _ => rfl⟩⟩
  · have hd := (stop_limit_inconsistent_iff o).mp hc
    rw [stop_limit_inconsistent o m os hb hp ht hc]
    exact ⟨⟨fun _ => hd, fun _ => rfl⟩,
           ⟨fun h => by simp at h, fun h => absurd hd h⟩⟩

/-- C3, witness: the Long/Above StopLimit order with `price = 150` and
`trigger_price = 100` passes the direction-consistency check and is
accepted. -/
theorem C3_witness :
    validate_order
        ⟨OrderType.StopLimit, PositionDirection.Long, 150, 100, 10 ^ 13, 0,
          OrderTriggerCondition.Above⟩
        ⟨⟨1, 1, 0⟩⟩ ⟨0⟩ = Except.ok () :=
  (C3_theorem _ _ _ 0 rfl (by decide) (by decide) (by decide) (by decide)
      (by decide)).2.mpr (by decide)

/-- C6: for a Limit order passing the earlier guards whose approximate
notional value, computed as `price × base_asset_amount` checked-divided
by the reserve precision and then by the ratio of price precision to
quote precision, is `v`, the order is accepted exactly when
`v ≥ min_order_quote_asset_amount` and rejected exactly when `v` is
strictly below it. -/
theorem C6_theorem (o : Order) (m : Market) (os : OrderState) (v : Nat)
    (hty : o.order_type = OrderType.Limit)
    (hb : validate_base_asset_amount o m = Except.ok ())
    (hp : o.price ≠ 0) (ht : o.trigger_price = 0)
    (hv : approx_notional o.price o.base_asset_amount = some v) :
    (validate_order o m os = Except.ok () ↔
      os.min_order_quote_asset_amount ≤ v) ∧
    (validate_order o m os = Except.error ErrorCode.InvalidOrder ↔
      v < os.min_order_quote_asset_amount) := by
  rw [validate_order_limit o m os hty, limit_tail o m os hb hp ht,
      notional_gate_some _ _ _ v hv]
  by_cases hlt : v < os.min_order_quote_asset_amount
  · rw [if_pos hlt]
    exact ⟨⟨fun h => by simp at h, fun h => absurd h (by omega)⟩,
           ⟨fun _ => hlt, fun _ => rfl⟩⟩
  · rw [if_neg hlt]
    exact ⟨⟨fun _ => by omega, fun _ => rfl⟩,
           ⟨fun h => by simp at h, fun h => absurd h hlt⟩⟩

/-- C6, witness: a Limit order whose converted value is exactly the
minimum (1) is accepted, and the rejection characterization holds at
the same input. -/
theorem C6_witness :
    (validate_order
        ⟨OrderType.Limit, PositionDirection.Long, 10 ^ 4, 0, 10 ^ 13, 0,
          OrderTriggerCondition.Above⟩
        ⟨⟨1, 1, 0⟩⟩ ⟨1⟩ = Except.ok () ↔ (1 : Nat) ≤ 1) ∧
    (validate_order
        ⟨OrderType.Limit, PositionDirection.Long, 10 ^ 4, 0, 10 ^ 13, 0,
          OrderTriggerCondition.Above⟩
        ⟨⟨1, 1, 0⟩⟩ ⟨1⟩ = Except.error ErrorCode.InvalidOrder ↔ (1 : Nat) < 1) :=
  C6_theorem _ _ _ 1 rfl (by decide) (by decide) rfl (by decide)

/-- C7: for a Stop order passing the base-amount rule: a positive
`price` is rejected (for any trigger price); a zero `trigger_price` is
rejected; and otherwise the approximate notional value is computed from
`trigger_price` and gated against the venue minimum exactly as for
Limit orders. -/
theorem C7_theorem (o : Order) (m : Market) (os : OrderState)
    (hty : o.order_type = OrderType.Stop)
    (hb : validate_base_asset_amount o m = Except.ok ()) :
    (0 < o.price → validate_order o m os = Except.error ErrorCode.InvalidOrder) ∧
    (¬ 0 < o.price → o.trigger_price = 0 →
      validate_order o m os = Except.error ErrorCode.InvalidOrder) ∧
    (∀ v, ¬ 0 < o.price → o.trigger_price ≠ 0 →
      approx_notional o.trigger_price o.base_asset_amount = some v →
      (validate_order o m os = Except.ok () ↔
        os.min_order_quote_asset_amount ≤ v)) := by
  rw [validate_order_stop o m os hty]
  refine ⟨fun hp => stop_price_pos o m os hb hp,
          fun hp ht => stop_trigger_zero o m os hb hp ht,
          fun v hp ht hv => ?_⟩
  rw [stop_tail o m os hb hp ht, notional_gate_some _ _ _ v hv]
  by_cases hlt : v < os.min_order_quote_asset_amount
  · rw [if_pos hlt]
    exact ⟨fun h => by simp at h, fun h => absurd h (by omega)⟩
  · rw [if_neg hlt]
    exact ⟨fun _ => by omega, fun _ => rfl⟩

/-- C7, witness: a Stop order with `price = 0`, `trigger_price = 10^4`
and `base_asset_amount = 10^13` has notional value 1 computed from the
trigger price and is gated against the venue minimum 1. -/
theorem C7_witness :
    validate_order
        ⟨OrderType.Stop, PositionDirection.Long, 0, 10 ^ 4, 10 ^ 13, 0,
          OrderTriggerCondition.Above⟩
        ⟨⟨1, 1, 0⟩⟩ ⟨1⟩ = Except.ok () ↔ (1 : Nat) ≤ 1 :=
  (C7_theorem _ _ _ rfl (by decide)).2.2 1 (by decide) (by decide) (by decide)

/-- C8: when a checked operation in the notional computation fails,
`validate_order` returns the arithmetic-failure error
`ErrorCode.MathError`; when the quote-to-reserve conversion routine
fails with error `e`, that error is propagated to the caller unchanged;
and the arithmetic-failure error is distinct from the validation
rejection error. -/
theorem C8_theorem (o : Order) (m : Market) (os : OrderState) :
    (o.order_type = OrderType.Limit →
      validate_base_asset_amount o m = Except.ok () →
      o.price ≠ 0 → o.trigger_price = 0 →
      approx_notional o.price o.base_asset_amount = none →
      validate_order o m os = Except.error ErrorCode.MathError) ∧
    (∀ e : ErrorCode, o.order_type = OrderType.Market →
      o.base_asset_amount = 0 → o.quote_asset_amount ≠ 0 →
      asset_to_reserve_amount o.quote_asset_amount m.amm.peg_multiplier =
        Except.error e →
      validate_order o m os = Except.error e) ∧
    ErrorCode.MathError ≠ ErrorCode.InvalidOrder := by
  refine ⟨fun hty hb hp ht hv => ?_, fun e hty hbz hq hconv => ?_, by decide⟩
  · rw [validate_order_limit o m os hty, limit_tail o m os hb hp ht,
        notional_gate_none _ _ _ hv]
  · rw [validate_order_market o m os hty]
    unfold validate_market_order validate_quote_asset_amount
    rw [if_neg (show ¬(0 < o.quote_asset_amount ∧ 0 < o.base_asset_amount) by omega),
        if_neg (show ¬ 0 < o.base_asset_amount by omega),
        if_neg hq, hconv]

/-- C8, witness: a Limit order whose `price × base_asset_amount`
overflows 128 bits fails with `MathError`, and a Market order whose
quote-to-reserve conversion fails (degenerate peg multiplier 0) has the
conversion error propagated unchanged. -/
theorem C8_witness :
    validate_order
        ⟨OrderType.Limit, PositionDirection.Long, 2 ^ 70, 0, 2 ^ 70, 0,
          OrderTriggerCondition.Above⟩
        ⟨⟨1, 1, 0⟩⟩ ⟨0⟩ = Except.error ErrorCode.MathError ∧
    validate_order
        ⟨OrderType.Market, PositionDirection.Long, 0, 0, 0, 5,
          OrderTriggerCondition.Above⟩
        ⟨⟨0, 0, 0⟩⟩ ⟨0⟩ = Except.error ErrorCode.MathError :=
  ⟨(C8_theorem _ _ _).1 rfl (by decide) (by decide) rfl (by decide),
   (C8_theorem _ _ _).2.1 ErrorCode.MathError rfl rfl (by decide) (by decide)⟩

/-- C9, counterexample: for a market with
`minimum_base_asset_trade_size = 0`, the Market order with
`base_asset_amount = 0` (and zero quote amount and trigger) satisfies
`base_asset_amount ≥ minimum_base_asset_trade_size` yet is rejected, so
acceptance is not characterized by `base_asset_amount ≥ minimum` as the
claim states. -/
theorem C9_counterexample :
    validate_order
        ⟨OrderType.Market, PositionDirection.Long, 0, 0, 0, 0, OrderTriggerCondition.Above⟩
        ⟨⟨1, 0, 0⟩⟩ ⟨0⟩ = Except.error ErrorCode.InvalidOrder ∧
      (⟨⟨1, 0, 0⟩⟩ : Market).amm.minimum_base_asset_trade_size ≤
        (⟨OrderType.Market, PositionDirection.Long, 0, 0, 0, 0,
            OrderTriggerCondition.Above⟩ : Order).base_asset_amount := by
  decide

/-- C9, amended: for a Market order with zero quote amount and zero
trigger price against a market with a positive
`minimum_base_asset_trade_size`, acceptance is monotone in
`base_asset_amount` with exactly one boundary: rejected for every
`base_asset_amount < minimum_base_asset_trade_size` and accepted for
every `base_asset_amount ≥ minimum_base_asset_trade_size`. -/
theorem C9_theorem (o : Order) (m : Market) (os : OrderState)
    (hty : o.order_type = OrderType.Market)
    (hq : o.quote_asset_amount = 0)
    (ht : o.trigger_price = 0)
    (hmin : 0 < m.amm.minimum_base_asset_trade_size) :
    (o.base_asset_amount < m.amm.minimum_base_asset_trade_size →
      validate_order o m os = Except.error ErrorCode.InvalidOrder) ∧
    (m.amm.minimum_base_asset_trade_size ≤ o.base_asset_amount →
      validate_order o m os = Except.ok ()) := by
  rw [validate_order_market o m os hty]
  unfold validate_market_order
  rw [if_neg (show ¬(0 < o.quote_asset_amount ∧ 0 < o.base_asset_amount) by omega)]
  constructor
  · intro hlt
    by_cases hbz : 0 < o.base_asset_amount
    · rw [if_pos hbz, base_amount_below o m (by omega) hlt]
    · rw [if_neg hbz]
      unfold validate_quote_asset_amount
      rw [if_pos hq]
  · intro hge
    rw [if_pos (show 0 < o.base_asset_amount by omega),
        base_amount_ok o m (by omega) hge,
        if_neg (show ¬ 0 < o.trigger_price by omega)]

/-- C9, witness: against a market minimum of 5, the Market order with
base amount 3 is rejected and the one with base amount 5 is
accepted. -/
theorem C9_witness :
    validate_order
        ⟨OrderType.Market, PositionDirection.Long, 0, 0, 3, 0, OrderTriggerCondition.Above⟩
        ⟨⟨1, 5, 0⟩⟩ ⟨0⟩ = Except.error ErrorCode.InvalidOrder ∧
    validate_order
        ⟨OrderType.Market, PositionDirection.Long, 0, 0, 5, 0, OrderTriggerCondition.Above⟩
        ⟨⟨1, 5, 0⟩⟩ ⟨0⟩ = Except.ok () :=
  ⟨(C9_theorem _ _ _ rfl rfl rfl (by decide)).1 (by decide),
   (C9_theorem _ _ _ rfl rfl rfl (by decide)).2 (by decide)⟩

/-- C10: for every Limit, Stop or StopLimit order, the result of
`validate_order` does not depend on `quote_asset_amount`: replacing
that field by any value leaves the result unchanged. -/
theorem C10_theorem (o : Order) (m : Market) (os : OrderState) (q : Nat)
    (h : o.order_type = OrderType.Limit ∨ o.order_type = OrderType.Stop ∨
      o.order_type = OrderType.StopLimit) :
    validate_order (set_quote_asset_amount o q) m os = validate_order o m os := by
  rcases h with h | h | h
  · rw [validate_order_limit (set_quote_asset_amount o q) m os h,
        validate_order_limit o m os h]
    rfl
  · rw [validate_order_stop (set_quote_asset_amount o q) m os h,
        validate_order_stop o m os h]
    rfl
  · rw [validate_order_stop_limit (set_quote_asset_amount o q) m os h,
        validate_order_stop_limit o m os h]
    rfl

/-- C10, witness: changing the quote amount of a concrete Limit order
to 42 leaves the validation result unchanged. -/
theorem C10_witness :
    validate_order
        (set_quote_asset_amount
          ⟨OrderType.Limit, PositionDirection.Long, 10 ^ 4, 0, 10 ^ 13, 7,
            OrderTriggerCondition.Above⟩ 42)
        ⟨⟨1, 1, 0⟩⟩ ⟨1⟩ =
      validate_order
        ⟨OrderType.Limit, PositionDirection.Long, 10 ^ 4, 0, 10 ^ 13, 7,
          OrderTriggerCondition.Above⟩
        ⟨⟨1, 1, 0⟩⟩ ⟨1⟩ :=
  C10_theorem _ _ _ 42 (Or.inl rfl)

end OrderValidation
